import Mathlib

/-!
Shallow embedding of the responsive statblock rendering component of
fantasy-statblocks: the Svelte component in `src/unnamed/part_000`
together with the statblock-parameter fields of `Monster` declared in
`src/index.ts`.

Modelling conventions:
* Optional fields typed `number` / `boolean` in the source are `Option Int`
  / `Option Bool`; `none` models an absent (`undefined`) field.  Column
  counts and widths are integers (they are counts and pixel widths).
* The component's reactive state (current columns, the ready flag, whether
  the `ResizeObserver` is connected) is an explicit state machine driven by
  discrete events: a debounced resize measurement delivering the
  container's client width, a wholesale replacement of the `monster` prop,
  and destruction of the component.
* The `ResizeObserver` collaborator is modelled by its contract: a
  measurement callback is delivered only while the observer is connected
  (`observing = true`); `disconnect()` sets `observing := false`.
-/

namespace FantasyStatblocks

/-- Statblock-parameter fields of `Monster` (src/index.ts) read by the
component.  `none` models an absent (`undefined`) field. -/
structure Monster where
  name : Option String
  columns : Option Int
  columnWidth : Option Int
  dice : Option Bool
  render : Option Bool
  forceColumns : Option Bool
deriving DecidableEq

/-- Fields of `Layout` (src/layouts/layout.types) read by the component:
its stable id, display name and the layout-level column defaults. -/
structure Layout where
  id : String
  name : String
  columns : Option Int
  columnWidth : Option Int
  forceColumns : Option Bool
deriving DecidableEq

/-- Plugin facts read by the component: `plugin.canUseDiceRoller`,
`plugin.settings.useDice` and `plugin.settings.renderDice`. -/
structure PluginState where
  canUseDiceRoller : Bool
  useDice : Bool
  renderDice : Bool
deriving DecidableEq

/-- Source, part_000 lines 40-44:
`const maxColumns = !isNaN(Number(monster.columns ?? layout.columns)) &&
Number(monster.columns ?? layout.columns) > 0 ? Number(...) : 2;`.
The nullish coalescing `x ?? y` is `Option.orElse`; `Number(undefined)` is
`NaN` (the `none` branch fails the `!isNaN` test), while a present integer
is its own `Number` and never `NaN`. -/
def maxColumns (mcols lcols : Option Int) : Int :=
  match mcols.orElse (fun _ => lcols) with
  | some v => if 0 < v then v else 2
  | none => 2

/-- Source, part_000 lines 46-48:
`const monsterColumnWidth = Number(` `${monster.columnWidth}` `.replace(/\D/g, ""));`.
For a present integer `n`, its decimal string with all non-digits removed
is the decimal string of `|n|` (the minus sign is a non-digit), so the
result is `n.natAbs`.  For an absent field the template string is
`"undefined"`, the digits removed leave `""`, and `Number("") = 0`. -/
def monsterColumnWidth (mcw : Option Int) : Int :=
  match mcw with
  | some n => (n.natAbs : Int)
  | none => 0

/-- Source, part_000 lines 49-53:
`const columnWidth = !isNaN(monsterColumnWidth ?? layout.columnWidth) &&
(monsterColumnWidth ?? layout.columnWidth) > 0 ? monsterColumnWidth : 400;`.
`monsterColumnWidth` is always a number (never nullish and never `NaN`:
`Number` of a digit string or of `""`), so both occurrences of
`monsterColumnWidth ?? layout.columnWidth` evaluate to `monsterColumnWidth`
itself: the `layout.columnWidth` fallback is unreachable.  The parameter
`lcw` is kept to record that the source mentions it without using it. -/
def columnWidth (mcw lcw : Option Int) : Int :=
  let m := monsterColumnWidth mcw
  if 0 < m then m else 400

/-- Source, part_000 lines 55-56:
`const canDice = plugin.canUseDiceRoller && (monster.dice ?? plugin.settings.useDice);`. -/
def canDice (p : PluginState) (m : Monster) : Bool :=
  p.canUseDiceRoller && m.dice.getD p.useDice

/-- Source, part_000 line 57:
`const canRender = monster.render ?? plugin.settings.renderDice;`. -/
def canRender (p : PluginState) (m : Monster) : Bool :=
  m.render.getD p.renderDice

/-- The effective force-columns flag read inside `setColumns`
(part_000 line 76): `monster.forceColumns ?? layout.forceColumns`, with an
absent pair being falsy. -/
def forceColumns (m : Monster) (l : Layout) : Bool :=
  (m.forceColumns.orElse (fun _ => l.forceColumns)).getD false

/-- The four `const` rendering parameters resolved once at component
initialization (part_000 lines 40-57). -/
structure Params where
  maxColumns : Int
  columnWidth : Int
  canDice : Bool
  canRender : Bool
deriving DecidableEq

/-- The mutable component state: the resolved constants, the current
`monster` prop (the `monsterStore` mirrors it via `$: $monsterStore = monster`),
the current column count, the `ready` flag, whether the `ResizeObserver`
is connected, and whether the component was destroyed. -/
structure CState where
  params : Params
  monster : Monster
  columns : Int
  ready : Bool
  observing : Bool
  destroyed : Bool
deriving DecidableEq

/-- Source, part_000 lines 75-86 (`const setColumns = () => {...}`):
when `monster.forceColumns ?? layout.forceColumns` is truthy, pin
`columns = maxColumns` and `observer.disconnect()`; otherwise
`columns = Math.min(Math.max(Math.floor(width / columnWidth), 1), maxColumns)`
with `width = container.clientWidth` (a non-negative integer, here the
event's payload).  For non-negative `width` and positive `columnWidth`,
integer division is `Math.floor`. -/
def setColumns (l : Layout) (width : Nat) (s : CState) : CState :=
  if forceColumns s.monster l then
    { s with columns := s.params.maxColumns, observing := false }
  else
    { s with columns := min (max ((width : Int) / s.params.columnWidth) 1) s.params.maxColumns }

/-- Discrete events driving the component after mount: a debounced resize
measurement (part_000 lines 87-94) carrying the container's client width,
a replacement of the `monster` prop, and `onDestroy`. -/
inductive Event where
  | measure (width : Nat)
  | setMonster (m : Monster)
  | destroy
deriving DecidableEq

/-- One step of the component.  A `measure` event is the debounced
`onResize` callback, delivered only while the observer is connected:
`setColumns(); if (!ready) ready = true;` (the conditional write always
leaves `ready = true`).  Replacing the `monster` prop re-runs the reactive
statement `$: $monsterStore = monster` only; the `const` parameters are not
recomputed.  `onDestroy` runs `observer.disconnect()`. -/
def step (l : Layout) (s : CState) (e : Event) : CState :=
  match e with
  | .measure w =>
      if s.observing then
        { setColumns l w s with ready := true }
      else s
  | .setMonster m => { s with monster := m }
  | .destroy => { s with observing := false, destroyed := true }

/-- Run a list of events from a state. -/
def run (l : Layout) (s : CState) : List Event → CState
  | [] => s
  | e :: evs => run l (step l s e) evs

/-- The state after component initialization and `onMount` (part_000 lines
38-73 and 97-100): the four parameters are resolved from the initial
`monster` and `layout`, `$: columns = maxColumns`, `$: ready = false`, and
the observer starts observing the container. -/
def initState (p : PluginState) (m : Monster) (l : Layout) : CState :=
  { params :=
      { maxColumns := maxColumns m.columns l.columns
        columnWidth := columnWidth m.columnWidth l.columnWidth
        canDice := canDice p m
        canRender := canRender p m }
    monster := m
    columns := maxColumns m.columns l.columns
    ready := false
    observing := true
    destroyed := false }

/-- A statblock item as `getNestedLayouts` sees it (part_000 lines 274-290):
a type tag, the referenced layout id (read when `type == "layout"`), and
nested children.  A block without a `nested` field is modelled by the empty
list: the source's `"nested" in block` guard only decides whether an empty
recursion is appended, which does not change the produced classes. -/
inductive SBlock where
  | mk (typ : String) (layoutId : String) (nested : List SBlock)

/-- Source, part_000 lines 274-290: walk the blocks in order; for a
`layout` block look the referenced layout up by id in the registry
(`plugin.manager.getAllLayouts()`) and push its slugified name; then
recurse into nested children.  `slug` models `slugifyLayoutForCss`, a pure
string function external to this component (src/util/util); its second
argument is the optional fallback. -/
def getNestedLayouts (reg : List Layout) (slug : String → Option String → String) :
    List SBlock → List String
  | [] => []
  | SBlock.mk typ layoutId nested :: bs =>
      (if typ == "layout" then
        match reg.find? (fun l => l.id == layoutId) with
        | some l => [slug l.name none]
        | none => []
      else []) ++ getNestedLayouts reg slug nested ++ getNestedLayouts reg slug bs

/-- Source, part_000 lines 272-294: the CSS class list is
`[slugifyLayoutForCss(monster.name ?? "", "no-name"),
slugifyLayoutForCss(layout.name, "no-layout"), ...getNestedLayouts(statblock)]`
filtered to non-empty strings. -/
def classes (slug : String → Option String → String) (reg : List Layout)
    (m : Monster) (l : Layout) (sb : List SBlock) : List String :=
  (slug (m.name.getD "") (some "no-name") ::
   slug l.name (some "no-layout") ::
   getNestedLayouts reg slug sb).filter (fun n => n.length != 0)

/-- What the template renders (part_000 lines 297-330). -/
inductive Rendered where
  | nothing
  | invalidMonster
  | statblock (columns maxCols : Int) (classList : List String)
deriving DecidableEq

/-- Source, part_000 lines 297-330: the whole statblock markup is inside
`{#if ready}`; within it, a truthy `$monsterStore` (`storePresent`) yields
the `ColumnContainer` with the current `columns`, `maxColumns` and class
list, otherwise the "Invalid monster." span. -/
def template (slug : String → Option String → String) (reg : List Layout)
    (l : Layout) (sb : List SBlock) (s : CState) (storePresent : Bool) : Rendered :=
  if s.ready then
    if storePresent then
      Rendered.statblock s.columns s.params.maxColumns (classes slug reg s.monster l sb)
    else Rendered.invalidMonster
  else Rendered.nothing

/-- Follows the spec's words (refinement comparison, not the source):
"Column count = creature override if present and a positive number, else
layout default, else a fixed fallback (2)"; the layout default itself is
used when it is a positive number. -/
def specMaxColumns (mcols lcols : Option Int) : Int :=
  match mcols with
  | some v =>
      if 0 < v then v
      else match lcols with
        | some w => if 0 < w then w else 2
        | none => 2
  | none =>
      match lcols with
      | some w => if 0 < w then w else 2
      | none => 2

/-- Follows the spec's words (refinement comparison, not the source):
"Column width = creature override (stripped of non-numeric characters) if
a positive number, else layout default, else a fixed fallback (400)". -/
def specColumnWidth (mcw lcw : Option Int) : Int :=
  match mcw with
  | some n =>
      if 0 < (n.natAbs : Int) then (n.natAbs : Int)
      else match lcw with
        | some w => if 0 < w then w else 400
        | none => 400
  | none =>
      match lcw with
      | some w => if 0 < w then w else 400
      | none => 400

/-- Invariant over the component state used for the column bounds. -/
def Inv (s : CState) : Prop :=
  1 ≤ s.params.maxColumns ∧ 1 ≤ s.columns ∧ s.columns ≤ s.params.maxColumns

/-- A concrete monster used in witnesses: override `columns = 3`,
`columnWidth = 400`, no force-columns. -/
def exMonster : Monster :=
  { name := some "Goblin", columns := some 3, columnWidth := some 400
    dice := none, render := none, forceColumns := none }

/-- A concrete monster that forces columns. -/
def exForceMonster : Monster :=
  { exMonster with forceColumns := some true }

/-- A concrete layout with defaults `columns = 2`, `columnWidth = 400`. -/
def exLayout : Layout :=
  { id := "basic", name := "Basic 5e Layout", columns := some 2
    columnWidth := some 400, forceColumns := none }

/-- A concrete plugin state. -/
def exPlugin : PluginState :=
  { canUseDiceRoller := true, useDice := true, renderDice := false }

/-- A concrete slugify model used in witnesses: lowercase-free stand-in
that returns the fallback on an empty name. -/
def exSlug (n : String) (fallback : Option String) : String :=
  if n.length = 0 then fallback.getD "" else n

/-- Concrete statblock items used in witnesses: one embedded-layout block
with a nested child. -/
def exBlocks : List SBlock :=
  [SBlock.mk "layout" "basic" [SBlock.mk "traits" "" []], SBlock.mk "text" "" []]

/-! ## Theorems -/

/-- C1 (counterexample): the claim "else the layout's default column count
when that is a positive number" fails: with a creature override that is
present but not positive (`columns = 0`) and layout default `3`, the code
resolves 2 (the spec reading would resolve 3). -/
theorem C1_counterexample :
    maxColumns (some 0) (some 3) = 2 ∧ specMaxColumns (some 0) (some 3) = 3 := by
  decide

/-- C1 (amended): the resolved maximum column count is computed from the
coalesced value `monster.columns ?? layout.columns`: the layout default is
consulted only when the creature override is absent; a positive coalesced
value is used, anything else (absent both, or a present non-positive
value) yields the fallback 2.  In particular, with creature override 3 and
layout default 2 the resolved maximum is 3. -/
theorem C1_maxColumns_resolution :
    (∀ (v : Int) (lcols : Option Int), 0 < v → maxColumns (some v) lcols = v) ∧
    (∀ (v : Int) (lcols : Option Int), v ≤ 0 → maxColumns (some v) lcols = 2) ∧
    (∀ w : Int, 0 < w → maxColumns none (some w) = w) ∧
    (∀ w : Int, w ≤ 0 → maxColumns none (some w) = 2) ∧
    maxColumns none none = 2 ∧
    maxColumns (some 3) (some 2) = 3 := by
  refine ⟨fun v lcols h => ?_, fun v lcols h => ?_, fun w h => ?_, fun w h => ?_,
    by decide, by decide⟩ <;> simp [maxColumns, Option.orElse] <;> omega

/-- C1 witness: the amended resolution evaluated at concrete inputs. -/
theorem C1_witness :
    maxColumns (some 3) (some 2) = 3 ∧ maxColumns (some 0) (some 5) = 2 ∧
    maxColumns none (some 4) = 4 ∧ maxColumns none (some (-1)) = 2 := by
  refine ⟨C1_maxColumns_resolution.1 3 (some 2) (by decide),
    C1_maxColumns_resolution.2.1 0 (some 5) (by decide),
    C1_maxColumns_resolution.2.2.1 4 (by decide),
    C1_maxColumns_resolution.2.2.2.1 (-1) (by decide)⟩

/-- C2: the layout's default column width is unreachable.  The source
coalesces `monsterColumnWidth ?? layout.columnWidth`, but `monsterColumnWidth`
is `Number(...)`, never nullish: with the creature override absent and a
positive layout default 300, the code resolves 400 where the claim (and the
`??` in the source itself) intends 300; a present override works, and with
both absent the fallback is 400. -/
theorem C2_columnWidth_layout_default_unreachable :
    columnWidth none (some 300) = 400 ∧ specColumnWidth none (some 300) = 300 ∧
    columnWidth (some 500) (some 300) = 500 ∧
    columnWidth none none = 400 := by
  decide

/-- C3: whenever the effective force-columns flag
(`monster.forceColumns ?? layout.forceColumns`) is set, `setColumns` pins
the column count to the resolved maximum verbatim, independent of the
measured width, and disconnects the resize observer. -/
theorem C3_forceColumns_pins (l : Layout) (s : CState) (w : Nat)
    (h : forceColumns s.monster l = true) :
    (setColumns l w s).columns = s.params.maxColumns ∧
    (setColumns l w s).observing = false ∧
    ∀ w' : Nat, setColumns l w s = setColumns l w' s := by
  refine ⟨?_, ?_, fun w' => ?_⟩ <;> simp [setColumns, h]

/-- C3 witness: force-columns set, container width 10 smaller than the
column width 400; the column count is still pinned to the maximum 3. -/
theorem C3_witness :
    (setColumns exLayout 10 (initState exPlugin exForceMonster exLayout)).columns = 3 ∧
    (setColumns exLayout 10 (initState exPlugin exForceMonster exLayout)).observing = false := by
  have h := C3_forceColumns_pins exLayout (initState exPlugin exForceMonster exLayout) 10
    (by decide)
  exact ⟨h.1, h.2.1⟩

/-- C4: an observed (debounced) resize with force-columns not active
recomputes the column count as
`clamp(floor(width / columnWidth), 1, maxColumns)` from the container's
current client width. -/
theorem C4_resize_recompute (l : Layout) (s : CState) (w : Nat)
    (hf : forceColumns s.monster l = false) (ho : s.observing = true) :
    (step l s (Event.measure w)).columns =
      min (max ((w : Int) / s.params.columnWidth) 1) s.params.maxColumns := by
  simp [step, ho, setColumns, hf]

/-- C4 witness: width 850 and column width 400 give
`clamp(floor(850/400), 1, 3) = 2` columns. -/
theorem C4_witness :
    (step exLayout (initState exPlugin exMonster exLayout) (Event.measure 850)).columns = 2 := by
  have h := C4_resize_recompute exLayout (initState exPlugin exMonster exLayout) 850
    (by decide) (by decide)
  exact h.trans (by decide)

/-- C5: the creature's per-render `dice` and `render` overrides take
precedence over the plugin-level defaults when present; when absent the
defaults apply, and dice parsing additionally requires the dice roller to
be available. -/
theorem C5_dice_overrides (p : PluginState) (m : Monster) :
    (∀ b : Bool, m.dice = some b → canDice p m = (p.canUseDiceRoller && b)) ∧
    (m.dice = none → canDice p m = (p.canUseDiceRoller && p.useDice)) ∧
    (∀ b : Bool, m.render = some b → canRender p m = b) ∧
    (m.render = none → canRender p m = p.renderDice) := by
  refine ⟨fun b hb => ?_, fun hn => ?_, fun b hb => ?_, fun hn => ?_⟩ <;>
    simp [canDice, canRender, *]

/-- C5 witness: a creature overriding `dice = true` and `render = true`
against a plugin whose defaults are both off. -/
theorem C5_witness :
    canDice ⟨true, false, false⟩
      ⟨some "x", none, none, some true, some true, none⟩ = (true && true) ∧
    canRender ⟨true, false, false⟩
      ⟨some "x", none, none, some true, some true, none⟩ = true := by
  have h := C5_dice_overrides ⟨true, false, false⟩
    ⟨some "x", none, none, some true, some true, none⟩
  exact ⟨h.1 true rfl, h.2.2.1 true rfl⟩

/-- Helper: no event other than a measurement sets the ready flag. -/
theorem run_ready_false (l : Layout) (s : CState) (evs : List Event)
    (hs : s.ready = false) (h : ∀ e ∈ evs, ∀ w : Nat, e ≠ Event.measure w) :
    (run l s evs).ready = false := by
  induction evs generalizing s with
  | nil => exact hs
  | cons e evs ih =>
      apply ih
      · cases e with
        | measure w => exact absurd rfl (h _ (List.mem_cons_self _ _) w)
        | setMonster m => simpa [step] using hs
        | destroy => simpa [step] using hs
      · exact fun e' he' w => h e' (List.mem_cons_of_mem _ he') w

/-- Helper: with the observer disconnected, delivered measurements leave
the state untouched. -/
theorem run_measures_fixed (l : Layout) (s : CState) (evs : List Event)
    (hs : s.observing = false) (h : ∀ e ∈ evs, ∃ w : Nat, e = Event.measure w) :
    run l s evs = s := by
  induction evs with
  | nil => rfl
  | cons e evs ih =>
      obtain ⟨w, rfl⟩ := h e (List.mem_cons_self _ _)
      rw [run, show step l s (Event.measure w) = s from by simp [step, hs]]
      exact ih fun e' he' => h e' (List.mem_cons_of_mem _ he')

/-- C6: the ready flag starts false at initialization, stays false along
any run containing no measurement, becomes true on the first delivered
measurement, is never reset by any later event, and while it is false the
template renders nothing. -/
theorem C6_ready_lifecycle (p : PluginState) (m : Monster) (l : Layout) :
    (initState p m l).ready = false ∧
    (∀ evs : List Event, (∀ e ∈ evs, ∀ w : Nat, e ≠ Event.measure w) →
      (run l (initState p m l) evs).ready = false) ∧
    (∀ (s : CState) (w : Nat), s.observing = true →
      (step l s (Event.measure w)).ready = true) ∧
    (∀ (s : CState) (e : Event), s.ready = true → (step l s e).ready = true) ∧
    (∀ (slug : String → Option String → String) (reg : List Layout)
        (sb : List SBlock) (s : CState) (storePresent : Bool),
      s.ready = false → template slug reg l sb s storePresent = Rendered.nothing) := by
  refine ⟨rfl, fun evs h => run_ready_false l _ evs rfl h, fun s w ho => ?_,
    fun s e hr => ?_, fun slug reg sb s sp hr => ?_⟩
  · simp [step, ho]
  · cases e with
    | measure w =>
        by_cases ho : s.observing = true
        · simp [step, ho]
        · simp only [Bool.not_eq_true] at ho
          simpa [step, ho] using hr
    | setMonster m' => simpa [step] using hr
    | destroy => simpa [step] using hr
  · simp [template, hr]

/-- C6 witness: a concrete run replacing the monster and destroying keeps
ready false and renders nothing; a delivered measurement makes it true. -/
theorem C6_witness :
    (initState exPlugin exMonster exLayout).ready = false ∧
    (run exLayout (initState exPlugin exMonster exLayout)
      [Event.setMonster exForceMonster, Event.destroy]).ready = false ∧
    (step exLayout (initState exPlugin exMonster exLayout)
      (Event.measure 800)).ready = true ∧
    template exSlug [exLayout] exLayout exBlocks
      (initState exPlugin exMonster exLayout) true = Rendered.nothing := by
  have h := C6_ready_lifecycle exPlugin exMonster exLayout
  refine ⟨h.1, h.2.1 _ ?_, h.2.2.1 _ 800 rfl,
    h.2.2.2.2 exSlug [exLayout] exBlocks _ true h.1⟩
  intro e he w
  rcases List.mem_cons.mp he with h' | h'
  · subst h'; simp
  · rcases List.mem_cons.mp h' with h'' | h''
    · subst h''; simp
    · cases h''

/-- C7: the resolved column parameters and the computed CSS class list are
deterministic functions of the creature, the layout, the layout registry
and the statblock items (with the slugify collaborator fixed): two runs on
equal inputs give equal outputs. -/
theorem C7_deterministic
    (slug slug' : String → Option String → String) (reg reg' : List Layout)
    (m m' : Monster) (l l' : Layout) (sb sb' : List SBlock)
    (h1 : slug = slug') (h2 : reg = reg') (h3 : m = m') (h4 : l = l')
    (h5 : sb = sb') :
    maxColumns m.columns l.columns = maxColumns m'.columns l'.columns ∧
    columnWidth m.columnWidth l.columnWidth = columnWidth m'.columnWidth l'.columnWidth ∧
    classes slug reg m l sb = classes slug' reg' m' l' sb' := by
  subst h1; subst h2; subst h3; subst h4; subst h5
  exact ⟨rfl, rfl, rfl⟩

/-- C7 witness: determinism at a concrete creature, layout, registry and
block list. -/
theorem C7_witness :
    maxColumns exMonster.columns exLayout.columns =
      maxColumns exMonster.columns exLayout.columns ∧
    columnWidth exMonster.columnWidth exLayout.columnWidth =
      columnWidth exMonster.columnWidth exLayout.columnWidth ∧
    classes exSlug [exLayout] exMonster exLayout exBlocks =
      classes exSlug [exLayout] exMonster exLayout exBlocks :=
  C7_deterministic exSlug exSlug [exLayout] [exLayout] exMonster exMonster
    exLayout exLayout exBlocks exBlocks rfl rfl rfl rfl rfl

/-- C8: destroying the component disconnects the resize observer, and once
disconnected any sequence of resize deliveries leaves the state exactly as
it was after destruction. -/
theorem C8_destroy_disconnects (l : Layout) (s : CState) :
    (step l s Event.destroy).observing = false ∧
    ∀ evs : List Event, (∀ e ∈ evs, ∃ w : Nat, e = Event.measure w) →
      run l (step l s Event.destroy) evs = step l s Event.destroy := by
  refine ⟨by simp [step], fun evs h => run_measures_fixed l _ evs (by simp [step]) h⟩

/-- C8 witness: two resize deliveries after destruction change nothing. -/
theorem C8_witness :
    run exLayout (step exLayout (initState exPlugin exMonster exLayout) Event.destroy)
      [Event.measure 500, Event.measure 120] =
    step exLayout (initState exPlugin exMonster exLayout) Event.destroy := by
  apply (C8_destroy_disconnects exLayout (initState exPlugin exMonster exLayout)).2
  intro e he
  rcases List.mem_cons.mp he with h' | h'
  · exact ⟨500, h'⟩
  · rcases List.mem_cons.mp h' with h'' | h''
    · exact ⟨120, h''⟩
    · cases h''

/-- C9: the resolved maximum column count is always at least 1, the
invariant `1 ≤ columns ≤ maxColumns` holds at initialization, and every
step of the component preserves it. -/
theorem C9_columns_invariant :
    (∀ mcols lcols : Option Int, 1 ≤ maxColumns mcols lcols) ∧
    (∀ (p : PluginState) (m : Monster) (l : Layout), Inv (initState p m l)) ∧
    (∀ (l : Layout) (s : CState) (e : Event), Inv s → Inv (step l s e)) := by
  have hmax : ∀ mcols lcols : Option Int, 1 ≤ maxColumns mcols lcols := by
    intro mcols lcols
    unfold maxColumns
    rcases mcols.orElse fun _ => lcols with _ | v
    · decide
    · dsimp only
      split <;> omega
  refine ⟨hmax, fun p m l => ⟨hmax _ _, hmax _ _, le_refl _⟩, fun l s e hInv => ?_⟩
  obtain ⟨hM, h1, h2⟩ := hInv
  cases e with
  | measure w =>
      by_cases ho : s.observing = true
      · simp only [step, ho, if_true]
        unfold setColumns
        split
        · exact ⟨hM, hM, le_refl _⟩
        · exact ⟨hM, le_min (le_max_right _ _) hM, min_le_right _ _⟩
      · simp only [Bool.not_eq_true] at ho
        simpa [step, ho] using ⟨hM, h1, h2⟩
  | setMonster m => exact ⟨hM, h1, h2⟩
  | destroy => exact ⟨hM, h1, h2⟩

/-- C9 witness: the invariant holds after a concrete measurement step from
a concrete initial state. -/
theorem C9_witness :
    Inv (step exLayout (initState exPlugin exMonster exLayout) (Event.measure 100)) :=
  C9_columns_invariant.2.2 exLayout (initState exPlugin exMonster exLayout)
    (Event.measure 100) ⟨by decide, by decide, by decide⟩

/-- C10: every step preserves the four parameters resolved at
initialization; replacing the `monster` prop updates the rendered creature
(the store) and nothing else of the resolved parameters, and the
parameters of the initial state are exactly the resolution of the initial
creature and layout. -/
theorem C10_params_frozen (l : Layout) (s : CState) :
    (∀ e : Event, (step l s e).params = s.params) ∧
    (∀ m : Monster, (step l s (Event.setMonster m)).monster = m) ∧
    (∀ (p : PluginState) (m0 : Monster) (l0 : Layout),
      (initState p m0 l0).params =
        ⟨maxColumns m0.columns l0.columns, columnWidth m0.columnWidth l0.columnWidth,
         canDice p m0, canRender p m0⟩) := by
  refine ⟨fun e => ?_, fun m => rfl, fun p m0 l0 => rfl⟩
  cases e with
  | measure w =>
      by_cases ho : s.observing = true
      · simp only [step, ho, if_true]
        unfold setColumns
        split <;> rfl
      · simp only [Bool.not_eq_true] at ho
        simp [step, ho]
  | setMonster m => rfl
  | destroy => rfl

end FantasyStatblocks
